import Mathlib

/-!
Verification development for the marketing-api-recipes repository.

The definitions below are a shallow embedding of the Python sources:
  * `extract_instagram_shortcode`, `fetch_all_advertisable_medias`,
    `fetch_branded_content_advertisable_medias`, `upload_instagram_video`,
    `create_ad_creative`, `create_ad` and the per-row loop of
    `create_partnership_ads_from_csv`
    from stats_for_dashboards/partnership_ads_booster.py, and
  * `make_api_request` from cpas_demos/shared/cpas_api_client.py.

Remote HTTP traffic is modelled by oracle values: each embedded function
takes the response (status, raw text, decoded JSON fields) or the raised
transport exception as an explicit argument, exactly as consumed by the
Python code.  Response bodies are assumed to decode as JSON, matching the
repository spec, which places the remote API semantics out of scope.
Python falsiness of strings, lists and optional values is modelled
explicitly (`pyOptStr`, `pyOptList`, `pyOptNat`, `pyOr`).
-/

-- Decidable equality for `Except` results, used to evaluate the embedded
-- functions on concrete inputs.
deriving instance DecidableEq for Except

/-! ## Python string helpers -/

/-- Truthiness of an optional string, as Python sees `None` and `""`. -/
def pyOptStr : Option String → Bool
  | none => false
  | some s => s ≠ ""

/-- Truthiness of an optional list, as Python sees `None` and `[]`. -/
def pyOptList {α : Type} : Option (List α) → Bool
  | none => false
  | some l => !l.isEmpty

/-- Truthiness of an optional integer, as Python sees `None` and `0`. -/
def pyOptNat : Option Nat → Bool
  | none => false
  | some n => n ≠ 0

/-- Python `x or d` on an optional string `x` and a default `d`. -/
def pyOr : Option String → String → String
  | none, d => d
  | some s, d => if s = "" then d else s

/-! ## Shortcode extraction (extract_instagram_shortcode)

The regex `(?:https?://)?(?:www\.)?instagram\.com/(?:p|reel|tv)/([A-Za-z0-9_-]+)`
applied with `re.search` is embedded as a matcher `matchAt` that attempts the
pattern at the head of a character list, plus `searchUrl` that scans every
start position left to right, as `re.search` does. -/

/-- Match a literal at the head of a list, returning the remainder. -/
def stripLit : List Char → List Char → Option (List Char)
  | [], s => some s
  | _ :: _, [] => none
  | a :: l, c :: s => if c = a then stripLit l s else none

/-- Literal test at the head of a list. -/
def startsWith (pat s : List Char) : Bool :=
  (stripLit pat s).isSome

/-- Python substring containment (`pat in s`). -/
def hasSubstr (pat : List Char) : List Char → Bool
  | [] => startsWith pat []
  | c :: t => startsWith pat (c :: t) || hasSubstr pat t

/-- The scheme literal `https://` of the URL pattern. -/
def schemeHttps : List Char := ['h', 't', 't', 'p', 's', ':', '/', '/']

/-- The scheme literal `http://` of the URL pattern. -/
def schemeHttp : List Char := ['h', 't', 't', 'p', ':', '/', '/']

/-- The optional `www.` literal of the URL pattern. -/
def wwwLit : List Char := ['w', 'w', 'w', '.']

/-- The mandatory `instagram.com/` literal of the URL pattern. -/
def coreLit : List Char := ['i', 'n', 's', 't', 'a', 'g', 'r', 'a', 'm', '.', 'c', 'o', 'm', '/']

/-- The `p/` alternative of the path component. -/
def pSlash : List Char := ['p', '/']

/-- The `reel/` alternative of the path component. -/
def reelSlash : List Char := ['r', 'e', 'e', 'l', '/']

/-- The `tv/` alternative of the path component. -/
def tvSlash : List Char := ['t', 'v', '/']

/-- Character class `[A-Za-z0-9_-]` of the captured group. -/
def isShortcodeChar (c : Char) : Bool :=
  (decide ('A' ≤ c) && decide (c ≤ 'Z')) ||
  (decide ('a' ≤ c) && decide (c ≤ 'z')) ||
  (decide ('0' ≤ c) && decide (c ≤ '9')) ||
  c == '_' || c == '-'

/-- Consume the optional scheme (`https://` tried before `http://`). -/
def skipScheme (s : List Char) : List Char :=
  match stripLit schemeHttps s with
  | some r => r
  | none =>
    match stripLit schemeHttp s with
    | some r => r
    | none => s

/-- Consume the optional `www.` literal. -/
def skipWww (s : List Char) : List Char :=
  match stripLit wwwLit s with
  | some r => r
  | none => s

/-- Consume one of the `p/`, `reel/`, `tv/` alternatives, in regex order. -/
def matchAlt (s : List Char) : Option (List Char) :=
  match stripLit pSlash s with
  | some r => some r
  | none =>
    match stripLit reelSlash s with
    | some r => some r
    | none => stripLit tvSlash s

/-- Greedily capture the nonempty group `[A-Za-z0-9_-]+`. -/
def matchGroup (s : List Char) : Option (List Char) :=
  if s.takeWhile isShortcodeChar = [] then none
  else some (s.takeWhile isShortcodeChar)

/-- Attempt the whole URL pattern at the head of `s`, returning group 1. -/
def matchAt (s : List Char) : Option (List Char) :=
  match stripLit coreLit (skipWww (skipScheme s)) with
  | none => none
  | some s3 =>
    match matchAlt s3 with
    | none => none
    | some s4 => matchGroup s4

/-- `re.search`: try the pattern at each start position, left to right. -/
def searchUrl : List Char → Option (List Char)
  | [] =>
    match matchAt [] with
    | some g => some g
    | none => none
  | c :: t =>
    match matchAt (c :: t) with
    | some g => some g
    | none => searchUrl t

/-- The `"/stories/"` marker checked with Python `in`. -/
def storiesChars : List Char := ['/', 's', 't', 'o', 'r', 'i', 'e', 's', '/']

/-- The message of the `ValueError` raised for stories URLs. -/
def storiesMsg : String := "Stories boosting is not supported by this script"

/-- The stripped character set of `permalink.strip("/")`. -/
def isSlash (c : Char) : Bool := c = '/'

/-- Python `permalink.strip("/")`: remove every leading and trailing slash. -/
def stripSlashes (s : List Char) : List Char :=
  ((s.dropWhile isSlash).reverse.dropWhile isSlash).reverse

/-- Embedding of `extract_instagram_shortcode`.  A raised `ValueError` is the
`Except.error` case; the returned shortcode is the `Except.ok` case. -/
def extract_instagram_shortcode (permalink : List Char) : Except String (List Char) :=
  if permalink = [] then Except.ok permalink
  else if hasSubstr storiesChars permalink then Except.error storiesMsg
  else
    match searchUrl permalink with
    | some g => Except.ok g
    | none => Except.ok (stripSlashes permalink)

/-! ## Eligibility fetch (fetch_branded_content_advertisable_medias)

The Python function returns either the first dict of `data` (on a 200 with a
nonempty `data` array), `None` (200 without usable `data`), or the dict
`\x7b"error": response.text\x7d` on a non-200 status.  Dict keys that the
pipeline reads are modelled as optional fields (`none` = key absent). -/

/-- One dict taken from the eligibility response, with exactly the keys the
per-row pipeline reads (`error`, `id`, `has_permission_for_partnership_ad`,
`eligibility_errors`); `none` models an absent key. -/
structure EligDict where
  error : Option String
  id : Option String
  has_permission_for_partnership_ad : Option Bool
  eligibility_errors : Option (List String)
  deriving DecidableEq

/-- Outcome of the `requests.get` issued by the eligibility fetch: a response
(status, raw text, optional decoded `data` array) or a raised exception. -/
inductive EligResp where
  | resp (status : Nat) (text : String) (data : Option (List EligDict))
  | exc (msg : String)
  deriving DecidableEq

/-- Embedding of `fetch_branded_content_advertisable_medias`.  The
`ValueError` raised when neither argument is truthy, and any exception of the
underlying request, surface as `Except.error`. -/
def fetch_branded_content_advertisable_medias (ad_code : Option String)
    (permalinks : Option (List String)) (r : EligResp) :
    Except String (Option EligDict) :=
  if pyOptStr ad_code || pyOptList permalinks then
    match r with
    | EligResp.exc m => Except.error m
    | EligResp.resp status text data =>
      if status = 200 then
        match data with
        | some (d :: _) => Except.ok (some d)
        | _ => Except.ok none
      else Except.ok (some (EligDict.mk (some text) none none none))
  else Except.error "ad_code or permalinks must be passed"

/-! ## Video upload (upload_instagram_video) -/

/-- Outcome of the `requests.post` issued by the video upload: a response
(status, raw text, optional `id` field of the decoded body) or a raised
exception.  The function has no try/except, so exceptions propagate. -/
inductive UploadResp where
  | resp (status : Nat) (text : String) (idKey : Option String)
  | exc (msg : String)
  deriving DecidableEq

/-- Embedding of `upload_instagram_video`; returns the Python pair
`(video_id, error)`, or `Except.error` for a propagated exception. -/
def upload_instagram_video (r : UploadResp) :
    Except String (Option String × Option String) :=
  match r with
  | UploadResp.exc m => Except.error m
  | UploadResp.resp status text idKey =>
    if status = 200 then
      match idKey with
      | some v => Except.ok (some v, none)
      | none => Except.ok (none, some "Video upload: \x27id\x27 not found in response data")
    else
      Except.ok (none, some ("Video upload failed: " ++ toString status ++ " - " ++ text))

/-! ## Creative creation (create_ad_creative) -/

/-- Outcome of the creative `requests.post`: a response or one of the two
exception classes distinguished by the Python handlers
(`requests.exceptions.RequestException` versus any other `Exception`). -/
inductive CreativeResp where
  | resp (status : Nat) (text : String) (idKey : Option String)
  | reqExc (msg : String)
  | otherExc (msg : String)
  deriving DecidableEq

/-- Embedding of `create_ad_creative`.  Both exception classes are caught
inside the function and mapped to `(None, message)` pairs; only the
`ValueError` raised before the request (neither `ad_code` nor
`source_instagram_media_id` truthy) escapes as `Except.error`. -/
def create_ad_creative (ad_code : Option String) (source_instagram_media_id : String)
    (r : CreativeResp) : Except String (Option String × Option String) :=
  if pyOptStr ad_code || source_instagram_media_id ≠ "" then
    Except.ok (match r with
      | CreativeResp.reqExc m => (none, some ("Creative creation request error: " ++ m))
      | CreativeResp.otherExc m => (none, some ("Creative creation unknown error: " ++ m))
      | CreativeResp.resp status text idKey =>
        if status = 200 then
          match idKey with
          | some v => (some v, none)
          | none => (none, some "Creative creation: \x27id\x27 not found in response data")
        else
          (none, some ("Creative creation failed: " ++ toString status ++ " - " ++ text)))
  else Except.error "ad_code or source_instagram_media_id must be passed"

/-! ## Ad creation (create_ad) -/

/-- Outcome of the ad `requests.post`.  Only
`requests.exceptions.RequestException` is caught by the Python function, so
`otherExc` propagates to the per-row handler. -/
inductive AdResp where
  | resp (status : Nat) (text : String) (idKey : Option String)
  | reqExc (msg : String)
  | otherExc (msg : String)
  deriving DecidableEq

/-- Embedding of `create_ad`; returns the Python pair
`(published_ad_id, error)`, or `Except.error` for a propagated exception. -/
def create_ad (ad_name ad_set_id : String) (r : AdResp) :
    Except String (Option String × Option String) :=
  match r with
  | AdResp.otherExc m => Except.error m
  | AdResp.reqExc m =>
    Except.ok (none, some ("Ad creation request error for ad \x27" ++ ad_name ++
      "\x27 (ad_set_id: " ++ ad_set_id ++ "): " ++ m))
  | AdResp.resp status text idKey =>
    if status = 200 then
      match idKey with
      | some v => Except.ok (some v, none)
      | none =>
        Except.ok (none, some ("Ad creation: \x27id\x27 not found in response data for ad name \x27" ++
          ad_name ++ "\x27 (ad_set_id: " ++ ad_set_id ++ ")"))
    else
      Except.ok (none, some ("Ad creation failed for ad \x27" ++ ad_name ++
        "\x27 (ad_set_id: " ++ ad_set_id ++ "): " ++ toString status ++ " - " ++ text))

/-! ## Per-row pipeline (create_partnership_ads_from_csv)

An input row is the dict read by `csv.DictReader`, restricted to the keys the
pipeline reads; an absent key and an empty value are both falsy in every use,
so both are modelled as `""`.  The remote traffic of one row is a `RowOracle`
giving the outcome of each of the four possible calls.  Alongside the output
row, the embedding returns the ordered list of remote calls actually issued,
so that short-circuiting (no call after a failure) is provable. -/

/-- One CSV input row. -/
structure InputRow where
  permalink : String
  ad_code : String
  cta_type : String
  link : String
  app_link : String
  ad_name : String
  ad_set_id : String
  product_set_id : String
  deriving DecidableEq

/-- One CSV output row: the copied input row plus the appended fields. -/
structure OutputRow where
  row : InputRow
  status : String
  error : String
  video_id : String
  creative_id : String
  published_ad_id : String
  deriving DecidableEq

/-- Outcomes of the four remote calls a row may issue. -/
structure RowOracle where
  elig : EligResp
  upload : UploadResp
  creative : CreativeResp
  ad : AdResp
  deriving DecidableEq

/-- Tag of a remote call issued while processing one row. -/
inductive CallTag where
  | elig
  | upload
  | creative
  | ad
  deriving DecidableEq

/-- The required-field validation: names of the falsy fields among
`cta_type`, `link`, `ad_name`, `ad_set_id`, in dict insertion order. -/
def requiredMissing (row : InputRow) : List String :=
  (if row.cta_type = "" then ["cta_type"] else []) ++
  (if row.link = "" then ["link"] else []) ++
  (if row.ad_name = "" then ["ad_name"] else []) ++
  (if row.ad_set_id = "" then ["ad_set_id"] else [])

/-- The stages of one row after a usable eligibility fetch result, i.e. the
part of the per-row loop body from the `if not eligibility:` check on. -/
def afterEligibility (row : InputRow) (orc : RowOracle) (eligibility : Option EligDict)
    (tr : List CallTag) : OutputRow × List CallTag :=
  match eligibility with
  | none => (OutputRow.mk row "failed" "Failed to fetch media eligibility" "" "" "", tr)
  | some d =>
    if pyOptStr d.error then
      (OutputRow.mk row "failed" ("API Error: " ++ d.error.getD "") "" "" "", tr)
    else if row.ad_code = "" && !(d.has_permission_for_partnership_ad.getD false) then
      (OutputRow.mk row "failed" "Media does not have permission for partnership ads" "" "" "", tr)
    else if pyOptList d.eligibility_errors then
      (OutputRow.mk row "failed"
        ("Eligibility errors: " ++ String.intercalate ", " (d.eligibility_errors.getD []))
        "" "" "", tr)
    else if pyOptStr d.id = false then
      (OutputRow.mk row "failed" "Media ID not found in eligibility response" "" "" "", tr)
    else
      match upload_instagram_video orc.upload with
      | Except.error m =>
        (OutputRow.mk row "failed" ("Unexpected error: " ++ m) "" "" "", tr ++ [CallTag.upload])
      | Except.ok (video_id, video_error) =>
        if pyOptStr video_id = false then
          (OutputRow.mk row "failed" (pyOr video_error "Video upload failed") "" "" "",
           tr ++ [CallTag.upload])
        else
          match create_ad_creative (if row.ad_code = "" then none else some row.ad_code)
              (d.id.getD "") orc.creative with
          | Except.error m =>
            (OutputRow.mk row "failed" ("Unexpected error: " ++ m) (video_id.getD "") "" "",
             tr ++ [CallTag.upload, CallTag.creative])
          | Except.ok (creative_id, creative_error) =>
            if pyOptStr creative_id = false then
              (OutputRow.mk row "failed" (pyOr creative_error "Creative creation failed")
                (video_id.getD "") "" "", tr ++ [CallTag.upload, CallTag.creative])
            else
              match create_ad row.ad_name row.ad_set_id orc.ad with
              | Except.error m =>
                (OutputRow.mk row "failed" ("Unexpected error: " ++ m) (video_id.getD "")
                  (creative_id.getD "") "", tr ++ [CallTag.upload, CallTag.creative, CallTag.ad])
              | Except.ok (published_ad_id, ad_error) =>
                if pyOptStr published_ad_id = false then
                  (OutputRow.mk row "failed" (pyOr ad_error "Ad creation failed")
                    (video_id.getD "") (creative_id.getD "") "",
                   tr ++ [CallTag.upload, CallTag.creative, CallTag.ad])
                else
                  (OutputRow.mk row "success" "" (video_id.getD "") (creative_id.getD "")
                    (published_ad_id.getD ""),
                   tr ++ [CallTag.upload, CallTag.creative, CallTag.ad])

/-- Embedding of one iteration of the row loop of
`create_partnership_ads_from_csv`: validation, media resolution, and the
three mutations, producing the appended output row and the list of remote
calls issued.  Exceptions propagating out of a call reach the per-row
`except Exception` handler, which stamps the partial IDs gathered so far. -/
def processRow (row : InputRow) (orc : RowOracle) : OutputRow × List CallTag :=
  if requiredMissing row ≠ [] then
    (OutputRow.mk row "failed"
      ("Missing required fields: " ++ String.intercalate ", " (requiredMissing row))
      "" "" "", [])
  else if row.permalink = "" && row.ad_code = "" then
    (OutputRow.mk row "failed" "Either permalink or ad_code must be provided" "" "" "", [])
  else if row.ad_code ≠ "" then
    match fetch_branded_content_advertisable_medias (some row.ad_code) none orc.elig with
    | Except.error m =>
      (OutputRow.mk row "failed" ("Unexpected error: " ++ m) "" "" "", [CallTag.elig])
    | Except.ok elig => afterEligibility row orc elig [CallTag.elig]
  else
    match extract_instagram_shortcode row.permalink.toList with
    | Except.error e => (OutputRow.mk row "failed" e "" "" "", [])
    | Except.ok sc =>
      match fetch_branded_content_advertisable_medias none (some [String.mk sc]) orc.elig with
      | Except.error m =>
        (OutputRow.mk row "failed" ("Unexpected error: " ++ m) "" "" "", [CallTag.elig])
      | Except.ok elig => afterEligibility row orc elig [CallTag.elig]

/-- Embedding of the whole row loop: one output row appended per input row,
in input order, with the row oracle indexed by row position. -/
def create_partnership_ads_from_csv : List InputRow → (Nat → RowOracle) → List OutputRow
  | [], _ => []
  | r :: rest, f =>
    (processRow r (f 0)).1 :: create_partnership_ads_from_csv rest (fun n => f (n + 1))

/-! ## Pagination fetcher (fetch_all_advertisable_medias)

The stream of page responses the server would return to successive requests
is the oracle.  The loop issues one request per iteration; a non-200 status
calls `sys.exit(1)` (modelled as `Except.error`), `data` is appended after an
optional permission filter, the limit check truncates and breaks before the
`paging.next` check, and a missing `paging.next` key ends the loop.  The
result pairs the accumulated media list with the number of page requests
issued. -/

/-- One media dict of a listing page, with the one key the loop reads plus
an identifying payload. -/
structure MediaItem where
  id : String
  has_permission_for_partnership_ad : Bool
  deriving DecidableEq

/-- One page response: HTTP status, raw text, the optional `data` array, and
whether a `paging.next` URL is present. -/
structure PageResponse where
  status : Nat
  text : String
  data : Option (List MediaItem)
  next : Bool
  deriving DecidableEq

/-- The page loop of `fetch_all_advertisable_medias`, carrying the
accumulator `all_medias`; returns the accumulated items and the number of
page requests issued, or the fatal error of a non-200 page. -/
def fetchMediasLoop (only_with_permission : Bool) (limit : Option Nat) :
    List PageResponse → List MediaItem → Except String (List MediaItem × Nat)
  | [], _ => Except.error "no further response available"
  | p :: rest, acc =>
    if p.status ≠ 200 then
      Except.error ("Error: " ++ toString p.status ++ " - " ++ p.text)
    else
      let acc2 := match p.data with
        | some medias =>
          acc ++ (if only_with_permission then
            medias.filter (fun m => m.has_permission_for_partnership_ad) else medias)
        | none => acc
      if p.data.isSome && pyOptNat limit && decide (limit.getD 0 ≤ acc2.length) then
        Except.ok (acc2.take (limit.getD 0), 1)
      else if p.next then
        match fetchMediasLoop only_with_permission limit rest acc2 with
        | Except.ok (res, n) => Except.ok (res, n + 1)
        | Except.error e => Except.error e
      else Except.ok (acc2, 1)

/-- Embedding of the fetch loop of `fetch_all_advertisable_medias`, started
with an empty accumulator (CSV serialization is outside the model). -/
def fetch_all_advertisable_medias (only_with_permission : Bool) (limit : Option Nat)
    (pages : List PageResponse) : Except String (List MediaItem × Nat) :=
  fetchMediasLoop only_with_permission limit pages []

/-! ## HTTP request wrapper (make_api_request) -/

/-- The nested `error` object of a Graph API error body; each key may be
absent. -/
structure GraphError where
  message : Option String
  code : Option Nat
  deriving DecidableEq

/-- A decoded JSON response body: the optional nested `error` object plus the
remaining payload entries, which `make_api_request` returns wholesale on a
200 status. -/
structure GraphBody where
  error : Option GraphError
  payload : List (String × String)
  deriving DecidableEq

/-- Outcome of the one `requests` call issued by `make_api_request`: a
response (status, raw text, decoded body), a raised
`requests.exceptions.RequestException`, or any other raised exception. -/
inductive ApiTransport where
  | resp (status : Nat) (text : String) (body : GraphBody)
  | reqExc (msg : String)
  | otherExc (msg : String)
  deriving DecidableEq

/-- Python `method.upper()`, mapping ASCII uppercase over the characters. -/
def upperStr (s : String) : String :=
  String.mk (s.data.map Char.toUpper)

/-- Whether `method.upper()` selects one of the GET/POST/DELETE branches. -/
def isSupportedMethod (m : String) : Bool :=
  decide (upperStr m = "GET" ∨ upperStr m = "POST" ∨ upperStr m = "DELETE")

/-- Embedding of `make_api_request`: the `(response_data, error_message)`
pair returned by the Python function. -/
def make_api_request (method : String) (t : ApiTransport) :
    Option GraphBody × Option String :=
  if isSupportedMethod method then
    match t with
    | ApiTransport.reqExc m => (none, some ("Request error: " ++ m))
    | ApiTransport.otherExc m => (none, some ("Unexpected error: " ++ m))
    | ApiTransport.resp status text body =>
      if status = 200 then (some body, none)
      else
        (none, some ("API Error " ++ toString ((body.error.bind GraphError.code).getD status) ++
          ": " ++ ((body.error.bind GraphError.message).getD text)))
  else (none, some ("Unsupported HTTP method: " ++ method))

/-! ## Concrete values used by the witness theorems -/

/-- A spec-side reading of the no-match branch of the shortcode extractor:
the claim says only one trailing slash is removed and everything else,
including leading slashes, is preserved. -/
def specTrailingOnly (p : List Char) : List Char :=
  if p.getLast? = some '/' then p.dropLast else p

/-- Witness row: every required field present, permalink empty, ad_code set. -/
def wRowAdCode : InputRow :=
  InputRow.mk "" "CODE1" "LEARN_MORE" "https://ex.am/pl" "" "Ad One" "111" ""

/-- Witness row: every required field present, both permalink and ad_code set. -/
def wRowBoth : InputRow :=
  InputRow.mk "https://www.instagram.com/p/Abc1/" "CODE2" "LEARN_MORE" "https://ex.am/pl" "" "Ad Two" "222" ""

/-- Witness row: permalink only. -/
def wRowPermalink : InputRow :=
  InputRow.mk "https://www.instagram.com/p/Abc1/" "" "LEARN_MORE" "https://ex.am/pl" "" "Ad Three" "333" ""

/-- Witness row: missing `cta_type`. -/
def wRowMissing : InputRow :=
  InputRow.mk "https://www.instagram.com/p/Abc1/" "" "" "https://ex.am/pl" "" "Ad Four" "444" ""

/-- Witness eligibility dict: usable media with permission granted. -/
def wEligOk : EligDict :=
  EligDict.mk none (some "M1") (some true) (some [])

/-- Witness eligibility dict: permission flag false, nonempty error list. -/
def wEligErrs : EligDict :=
  EligDict.mk none (some "M1") (some false) (some ["ERR_A", "ERR_B"])

/-- Witness oracle: every call succeeds. -/
def wOrcAllOk : RowOracle :=
  RowOracle.mk (EligResp.resp 200 "" (some [wEligOk])) (UploadResp.resp 200 "" (some "V1"))
    (CreativeResp.resp 200 "" (some "C1")) (AdResp.resp 200 "" (some "A1"))

/-- Witness oracle: eligibility and upload succeed, creative creation gets a
400 response. -/
def wOrcCreativeFail : RowOracle :=
  RowOracle.mk (EligResp.resp 200 "" (some [wEligOk])) (UploadResp.resp 200 "" (some "V1"))
    (CreativeResp.resp 400 "bad creative" none) (AdResp.resp 200 "" (some "A1"))

/-- Witness media items for the pagination example. -/
def wM1 : MediaItem := MediaItem.mk "m1" true

/-- Second witness media item. -/
def wM2 : MediaItem := MediaItem.mk "m2" true

/-- Third witness media item. -/
def wM3 : MediaItem := MediaItem.mk "m3" true

/-- First witness page: three admitted items and a next-page cursor. -/
def wPage1 : PageResponse := PageResponse.mk 200 "" (some [wM1, wM2, wM3]) true

/-- Second witness page, never requested in the example. -/
def wPage2 : PageResponse := PageResponse.mk 200 "" (some [MediaItem.mk "m4" true]) false

/-- Witness Graph API body carrying a nested error object. -/
def wBodyErr : GraphBody :=
  GraphBody.mk (some (GraphError.mk (some "Invalid OAuth access token.") (some 190))) []

/-- Witness Graph API body with no error object. -/
def wBodyPlain : GraphBody :=
  GraphBody.mk none [("ok", "1")]

/-- Successful decompositions of an input accepted by `matchAt`: one of the
scheme alternatives (or none), the optional `www.`, the fixed core literal,
one path alternative, a nonempty run of shortcode characters, and an
arbitrary remainder. -/
def UrlDecomp (t : List Char) : Prop :=
  ∃ S W A g r,
    (S = schemeHttps ∨ S = schemeHttp ∨ S = []) ∧
    (W = wwwLit ∨ W = []) ∧
    (A = pSlash ∨ A = reelSlash ∨ A = tvSlash) ∧
    g ≠ [] ∧ (∀ c ∈ g, isShortcodeChar c = true) ∧
    t = S ++ (W ++ (coreLit ++ (A ++ (g ++ r))))

/-! # Theorems -/

/-! ## Generic helper lemmas -/

/-- Appending on the right preserves string nonemptiness. -/
theorem str_append_ne_empty (s t : String) (h : s ≠ "") : s ++ t ≠ "" := by
  intro hc
  have hd : s.data ++ t.data = ([] : List Char) := congrArg String.data hc
  exact h (String.ext (List.append_eq_nil.mp hd).1)

/-- Python `x or d` with a nonempty default is nonempty. -/
theorem pyOr_ne_empty (o : Option String) (d : String) (h : d ≠ "") : pyOr o d ≠ "" := by
  cases o with
  | none => simpa [pyOr] using h
  | some s =>
    by_cases hs : s = "" <;> simp [pyOr, hs, h]

/-! ## Literal matching lemmas -/

/-- A successful literal match decomposes its input. -/
theorem stripLit_eq_some (l : List Char) :
    ∀ s r, stripLit l s = some r → s = l ++ r := by
  induction l with
  | nil =>
    intro s r h
    simp [stripLit] at h
    simp [h]
  | cons a l ih =>
    intro s r h
    cases s with
    | nil => simp [stripLit] at h
    | cons c t =>
      by_cases hc : c = a
      · rw [hc]
        simp only [stripLit, hc, if_pos] at h
        rw [ih t r (by simpa using h)]
        rfl
      · simp [stripLit, hc] at h

/-- Matching a literal against itself plus a remainder succeeds. -/
theorem stripLit_self (l x : List Char) : stripLit l (l ++ x) = some x := by
  induction l with
  | nil => simp [stripLit]
  | cons a l ih => simpa [stripLit] using ih

/-- A head mismatch makes the literal match fail. -/
theorem stripLit_ne_head (a : Char) (l : List Char) (c : Char) (s : List Char)
    (h : c ≠ a) : stripLit (a :: l) (c :: s) = none := by
  simp [stripLit, h]

/-- Equal heads reduce a literal match one step. -/
theorem stripLit_cons_same (a : Char) (l : List Char) (s : List Char) :
    stripLit (a :: l) (a :: s) = stripLit l s := by
  simp [stripLit]

/-- `startsWith` succeeds exactly on decomposable inputs. -/
theorem startsWith_iff (pat s : List Char) :
    startsWith pat s = true ↔ ∃ r, s = pat ++ r := by
  unfold startsWith
  constructor
  · intro h
    rcases Option.isSome_iff_exists.mp h with ⟨r, hr⟩
    exact ⟨r, stripLit_eq_some pat s r hr⟩
  · rintro ⟨r, rfl⟩
    simp [stripLit_self]

/-- `hasSubstr` succeeds exactly when the pattern occurs contiguously. -/
theorem hasSubstr_iff (pat s : List Char) :
    hasSubstr pat s = true ↔ ∃ l r, s = l ++ pat ++ r := by
  induction s with
  | nil =>
    unfold hasSubstr
    rw [startsWith_iff]
    constructor
    · rintro ⟨r, hr⟩
      exact ⟨[], r, by simpa using hr⟩
    · rintro ⟨l, r, hl⟩
      rcases List.append_eq_nil.mp (List.append_eq_nil.mp hl.symm).1 with ⟨h1, h2⟩
      exact ⟨r, by simp [h2, (List.append_eq_nil.mp hl.symm).2]⟩
  | cons c t ih =>
    unfold hasSubstr
    rw [Bool.or_eq_true, startsWith_iff, ih]
    constructor
    · rintro (⟨r, hr⟩ | ⟨l, r, hr⟩)
      · exact ⟨[], r, by simpa using hr⟩
      · exact ⟨c :: l, r, by simp [hr]⟩
    · rintro ⟨l, r, hr⟩
      cases l with
      | nil => exact Or.inl ⟨r, by simpa using hr⟩
      | cons d l =>
        rw [List.cons_append] at hr
        exact Or.inr ⟨l, r, (List.cons.inj hr).2⟩

/-- A pattern occurring in a middle segment occurs in the whole list. -/
theorem hasSubstr_of_parts (pat u a b : List Char) (h : hasSubstr pat u = true) :
    hasSubstr pat (a ++ (u ++ b)) = true := by
  rcases (hasSubstr_iff pat u).mp h with ⟨l, r, rfl⟩
  exact (hasSubstr_iff pat _).mpr ⟨a ++ l, r ++ b, by simp⟩

/-- A pattern absent from a whole list is absent from any middle segment. -/
theorem hasSubstr_none_parts (pat u a b : List Char)
    (h : hasSubstr pat (a ++ (u ++ b)) = false) : hasSubstr pat u = false := by
  cases hu : hasSubstr pat u with
  | false => rfl
  | true =>
    rw [hasSubstr_of_parts pat u a b hu] at h
    exact h

/-! ## Slash-stripping lemmas -/

/-- The characters dropped from the front by `strip("/")` are slashes. -/
theorem takeWhile_isSlash_replicate (s : List Char) :
    ∃ k, s.takeWhile isSlash = List.replicate k '/' := by
  refine ⟨(s.takeWhile isSlash).length, List.eq_replicate_of_mem ?_⟩
  intro b hb
  have := List.mem_takeWhile_imp hb
  simpa [isSlash] using this

/-- `dropWhile` is a no-op when the head does not satisfy the predicate. -/
theorem dropWhile_noop (f : Char → Bool) (s : List Char)
    (h : ∀ c, s.head? = some c → f c = false) : s.dropWhile f = s := by
  cases s with
  | nil => rfl
  | cons a t => simp [List.dropWhile_cons, h a rfl]

/-- The head surviving `dropWhile` does not satisfy the predicate. -/
theorem dropWhile_head_not (f : Char → Bool) (s : List Char) :
    ∀ c, (s.dropWhile f).head? = some c → f c = false := by
  induction s with
  | nil => intro c h; simp at h
  | cons a t ih =>
    intro c h
    rw [List.dropWhile_cons] at h
    by_cases ha : f a = true
    · rw [if_pos ha] at h
      exact ih c h
    · rw [if_neg ha] at h
      have : c = a := by simpa using h.symm
      rw [this]
      simpa using ha

/-- `strip("/")` decomposes its input into slash runs around the result. -/
theorem stripSlashes_decomp (s : List Char) :
    ∃ k m, s = List.replicate k '/' ++ (stripSlashes s ++ List.replicate m '/') := by
  obtain ⟨k, hk⟩ := takeWhile_isSlash_replicate s
  obtain ⟨m, hm⟩ := takeWhile_isSlash_replicate (s.dropWhile isSlash).reverse
  refine ⟨k, m, ?_⟩
  have h1 : s.takeWhile isSlash ++ s.dropWhile isSlash = s :=
    List.takeWhile_append_dropWhile isSlash s
  have h2 : (s.dropWhile isSlash).reverse.takeWhile isSlash ++
      (s.dropWhile isSlash).reverse.dropWhile isSlash = (s.dropWhile isSlash).reverse :=
    List.takeWhile_append_dropWhile isSlash (s.dropWhile isSlash).reverse
  have h4 := congrArg List.reverse h2
  rw [List.reverse_append, List.reverse_reverse] at h4
  have h3 : s.dropWhile isSlash = stripSlashes s ++
      ((s.dropWhile isSlash).reverse.takeWhile isSlash).reverse := h4.symm
  calc s = s.takeWhile isSlash ++ s.dropWhile isSlash := h1.symm
    _ = List.replicate k '/' ++ s.dropWhile isSlash := by rw [hk]
    _ = List.replicate k '/' ++ (stripSlashes s ++
        ((s.dropWhile isSlash).reverse.takeWhile isSlash).reverse) := by rw [← h3]
    _ = List.replicate k '/' ++ (stripSlashes s ++ List.replicate m '/') := by
        rw [hm, List.reverse_replicate]

/-- The result of `strip("/")` does not start with a slash. -/
theorem stripSlashes_head (s : List Char) :
    ∀ c, (stripSlashes s).head? = some c → isSlash c = false := by
  intro c hc
  unfold stripSlashes at hc
  rw [List.head?_reverse] at hc
  have hne : (s.dropWhile isSlash).reverse.dropWhile isSlash ≠ [] := by
    intro hnil
    rw [hnil] at hc
    simp at hc
  have h2 : (s.dropWhile isSlash).reverse.takeWhile isSlash ++
      (s.dropWhile isSlash).reverse.dropWhile isSlash = (s.dropWhile isSlash).reverse :=
    List.takeWhile_append_dropWhile isSlash (s.dropWhile isSlash).reverse
  have h3 : ((s.dropWhile isSlash).reverse).getLast? = some c := by
    rw [← h2, List.getLast?_append_of_ne_nil _ hne]
    exact hc
  rw [List.getLast?_reverse] at h3
  exact dropWhile_head_not isSlash s c h3

/-- The result of `strip("/")` does not end with a slash. -/
theorem stripSlashes_last (s : List Char) :
    ∀ c, (stripSlashes s).getLast? = some c → isSlash c = false := by
  intro c hc
  unfold stripSlashes at hc
  rw [List.getLast?_reverse] at hc
  exact dropWhile_head_not isSlash (s.dropWhile isSlash).reverse c hc

/-- `strip("/")` is idempotent. -/
theorem stripSlashes_idem (s : List Char) :
    stripSlashes (stripSlashes s) = stripSlashes s := by
  have h1 : (stripSlashes s).dropWhile isSlash = stripSlashes s :=
    dropWhile_noop isSlash _ (stripSlashes_head s)
  have h2 : (stripSlashes s).reverse.dropWhile isSlash = (stripSlashes s).reverse := by
    apply dropWhile_noop
    intro c hcc
    rw [List.head?_reverse] at hcc
    exact stripSlashes_last s c hcc
  calc stripSlashes (stripSlashes s)
      = (((stripSlashes s).dropWhile isSlash).reverse.dropWhile isSlash).reverse := rfl
    _ = ((stripSlashes s).reverse.dropWhile isSlash).reverse := by rw [h1]
    _ = (stripSlashes s).reverse.reverse := by rw [h2]
    _ = stripSlashes s := by simp

/-! ## URL matcher lemmas -/

/-- `https://` does not match ahead of an `http://` input. -/
theorem stripLit_https_http (x : List Char) : stripLit schemeHttps (schemeHttp ++ x) = none := by
  simp only [schemeHttps, schemeHttp, List.cons_append, List.nil_append]
  rw [stripLit_cons_same, stripLit_cons_same, stripLit_cons_same, stripLit_cons_same]
  exact stripLit_ne_head _ _ _ _ (by decide)

/-- `https://` does not match ahead of a `www.` input. -/
theorem stripLit_https_www (x : List Char) : stripLit schemeHttps (wwwLit ++ x) = none := by
  simp only [schemeHttps, wwwLit, List.cons_append, List.nil_append]
  exact stripLit_ne_head _ _ _ _ (by decide)

/-- `http://` does not match ahead of a `www.` input. -/
theorem stripLit_http_www (x : List Char) : stripLit schemeHttp (wwwLit ++ x) = none := by
  simp only [schemeHttp, wwwLit, List.cons_append, List.nil_append]
  exact stripLit_ne_head _ _ _ _ (by decide)

/-- `https://` does not match ahead of the core literal. -/
theorem stripLit_https_core (x : List Char) : stripLit schemeHttps (coreLit ++ x) = none := by
  simp only [schemeHttps, coreLit, List.cons_append, List.nil_append]
  exact stripLit_ne_head _ _ _ _ (by decide)

/-- `http://` does not match ahead of the core literal. -/
theorem stripLit_http_core (x : List Char) : stripLit schemeHttp (coreLit ++ x) = none := by
  simp only [schemeHttp, coreLit, List.cons_append, List.nil_append]
  exact stripLit_ne_head _ _ _ _ (by decide)

/-- `www.` does not match ahead of the core literal. -/
theorem stripLit_www_core (x : List Char) : stripLit wwwLit (coreLit ++ x) = none := by
  simp only [wwwLit, coreLit, List.cons_append, List.nil_append]
  exact stripLit_ne_head _ _ _ _ (by decide)

/-- `p/` does not match ahead of a `reel/` input. -/
theorem stripLit_p_reel (x : List Char) : stripLit pSlash (reelSlash ++ x) = none := by
  simp only [pSlash, reelSlash, List.cons_append, List.nil_append]
  exact stripLit_ne_head _ _ _ _ (by decide)

/-- `p/` does not match ahead of a `tv/` input. -/
theorem stripLit_p_tv (x : List Char) : stripLit pSlash (tvSlash ++ x) = none := by
  simp only [pSlash, tvSlash, List.cons_append, List.nil_append]
  exact stripLit_ne_head _ _ _ _ (by decide)

/-- `reel/` does not match ahead of a `tv/` input. -/
theorem stripLit_reel_tv (x : List Char) : stripLit reelSlash (tvSlash ++ x) = none := by
  simp only [reelSlash, tvSlash, List.cons_append, List.nil_append]
  exact stripLit_ne_head _ _ _ _ (by decide)

/-- Scheme skipping consumes an `https://` literal. -/
theorem skipScheme_https (x : List Char) : skipScheme (schemeHttps ++ x) = x := by
  unfold skipScheme
  rw [stripLit_self]

/-- Scheme skipping consumes an `http://` literal. -/
theorem skipScheme_http (x : List Char) : skipScheme (schemeHttp ++ x) = x := by
  unfold skipScheme
  rw [stripLit_https_http, stripLit_self]

/-- Scheme skipping leaves a `www.` input alone. -/
theorem skipScheme_www (x : List Char) : skipScheme (wwwLit ++ x) = wwwLit ++ x := by
  unfold skipScheme
  rw [stripLit_https_www, stripLit_http_www]

/-- Scheme skipping leaves a core-literal input alone. -/
theorem skipScheme_core (x : List Char) : skipScheme (coreLit ++ x) = coreLit ++ x := by
  unfold skipScheme
  rw [stripLit_https_core, stripLit_http_core]

/-- `www.` skipping consumes a `www.` literal. -/
theorem skipWww_www (x : List Char) : skipWww (wwwLit ++ x) = x := by
  unfold skipWww
  rw [stripLit_self]

/-- `www.` skipping leaves a core-literal input alone. -/
theorem skipWww_core (x : List Char) : skipWww (coreLit ++ x) = coreLit ++ x := by
  unfold skipWww
  rw [stripLit_www_core]

/-- The alternation accepts `p/`. -/
theorem matchAlt_p (x : List Char) : matchAlt (pSlash ++ x) = some x := by
  unfold matchAlt
  rw [stripLit_self]

/-- The alternation accepts `reel/`. -/
theorem matchAlt_reel (x : List Char) : matchAlt (reelSlash ++ x) = some x := by
  unfold matchAlt
  rw [stripLit_p_reel, stripLit_self]

/-- The alternation accepts `tv/`. -/
theorem matchAlt_tv (x : List Char) : matchAlt (tvSlash ++ x) = some x := by
  unfold matchAlt
  rw [stripLit_p_tv, stripLit_reel_tv, stripLit_self]

/-- The group capture succeeds on a nonempty run of shortcode characters. -/
theorem matchGroup_isSome (g r : List Char) (hg : g ≠ [])
    (hall : ∀ c ∈ g, isShortcodeChar c = true) : (matchGroup (g ++ r)).isSome = true := by
  cases g with
  | nil => exact absurd rfl hg
  | cons c g =>
    have hc : isShortcodeChar c = true := hall c (by simp)
    simp [matchGroup, List.takeWhile_cons, hc]

/-- Every input decomposes around its consumed optional scheme. -/
theorem skipScheme_decomp (t : List Char) :
    ∃ S, (S = schemeHttps ∨ S = schemeHttp ∨ S = []) ∧ t = S ++ skipScheme t := by
  unfold skipScheme
  rcases h1 : stripLit schemeHttps t with _ | r1
  · rcases h2 : stripLit schemeHttp t with _ | r2
    · exact ⟨[], Or.inr (Or.inr rfl), by simp⟩
    · exact ⟨schemeHttp, Or.inr (Or.inl rfl), stripLit_eq_some _ _ _ h2⟩
  · exact ⟨schemeHttps, Or.inl rfl, stripLit_eq_some _ _ _ h1⟩

/-- Every input decomposes around its consumed optional `www.`. -/
theorem skipWww_decomp (t : List Char) :
    ∃ W, (W = wwwLit ∨ W = []) ∧ t = W ++ skipWww t := by
  unfold skipWww
  rcases h1 : stripLit wwwLit t with _ | r1
  · exact ⟨[], Or.inr rfl, by simp⟩
  · exact ⟨wwwLit, Or.inl rfl, stripLit_eq_some _ _ _ h1⟩

/-- A successful alternation step decomposes its input. -/
theorem matchAlt_decomp (s3 s4 : List Char) (h : matchAlt s3 = some s4) :
    ∃ A, (A = pSlash ∨ A = reelSlash ∨ A = tvSlash) ∧ s3 = A ++ s4 := by
  unfold matchAlt at h
  rcases h1 : stripLit pSlash s3 with _ | r1
  · rw [h1] at h
    rcases h2 : stripLit reelSlash s3 with _ | r2
    · rw [h2] at h
      exact ⟨tvSlash, Or.inr (Or.inr rfl), stripLit_eq_some _ _ _ h⟩
    · rw [h2] at h
      refine ⟨reelSlash, Or.inr (Or.inl rfl), ?_⟩
      have : r2 = s4 := by simpa using h
      rw [← this]
      exact stripLit_eq_some _ _ _ h2
  · rw [h1] at h
    refine ⟨pSlash, Or.inl rfl, ?_⟩
    have : r1 = s4 := by simpa using h
    rw [← this]
    exact stripLit_eq_some _ _ _ h1

/-- A successful `matchAt` yields a decomposition of its input. -/
theorem matchAt_decomp (t : List Char) (h : (matchAt t).isSome = true) : UrlDecomp t := by
  unfold matchAt at h
  rcases hc : stripLit coreLit (skipWww (skipScheme t)) with _ | s3
  · rw [hc] at h
    simp at h
  · rw [hc] at h
    have h2 : (match matchAlt s3 with
      | none => none
      | some s4 => matchGroup s4).isSome = true := h
    rcases hA : matchAlt s3 with _ | s4
    · rw [hA] at h2
      simp at h2
    · rw [hA] at h2
      have h3 : (if s4.takeWhile isShortcodeChar = [] then (none : Option (List Char))
        else some (s4.takeWhile isShortcodeChar)).isSome = true := h2
      by_cases hg : s4.takeWhile isShortcodeChar = []
      · rw [if_pos hg] at h3
        simp at h3
      · obtain ⟨S, hS, e1⟩ := skipScheme_decomp t
        obtain ⟨W, hW, e2⟩ := skipWww_decomp (skipScheme t)
        obtain ⟨A, hAmem, e3⟩ := matchAlt_decomp s3 s4 hA
        refine ⟨S, W, A, s4.takeWhile isShortcodeChar, s4.dropWhile isShortcodeChar,
          hS, hW, hAmem, hg, ?_, ?_⟩
        · intro c hcmem
          exact List.mem_takeWhile_imp hcmem
        · rw [e1, e2, stripLit_eq_some _ _ _ hc, e3,
            ← List.takeWhile_append_dropWhile isShortcodeChar s4]
          simp

/-- A decomposable input is accepted by `matchAt`. -/
theorem matchAt_of_decomp (t : List Char) (h : UrlDecomp t) : (matchAt t).isSome = true := by
  obtain ⟨S, W, A, g, r, hS, hW, hA, hg, hall, rfl⟩ := h
  have hgrp := matchGroup_isSome g r hg hall
  rcases hS with rfl | rfl | rfl <;> rcases hW with rfl | rfl <;>
    rcases hA with rfl | rfl | rfl <;>
    simp only [matchAt, List.nil_append, skipScheme_https, skipScheme_http, skipScheme_www,
      skipScheme_core, skipWww_www, skipWww_core, stripLit_self, matchAlt_p, matchAlt_reel,
      matchAlt_tv] <;>
    exact hgrp

/-- Extending the input on the right preserves `matchAt` success. -/
theorem matchAt_append (t b : List Char) (h : (matchAt t).isSome = true) :
    (matchAt (t ++ b)).isSome = true := by
  obtain ⟨S, W, A, g, r, hS, hW, hA, hg, hall, rfl⟩ := matchAt_decomp t h
  exact matchAt_of_decomp _ ⟨S, W, A, g, r ++ b, hS, hW, hA, hg, hall, by simp⟩

/-! ## Search lemmas -/

/-- A failed search fails at its own head position. -/
theorem searchUrl_none_matchAt (s : List Char) (h : searchUrl s = none) : matchAt s = none := by
  cases s with
  | nil =>
    unfold searchUrl at h
    rcases hm : matchAt [] with _ | g
    · exact hm

    · rw [hm] at h
      simp at h
  | cons c t =>
    unfold searchUrl at h
    rcases hm : matchAt (c :: t) with _ | g
    · rfl
    · rw [hm] at h
      simp at h

/-- A failed search on a cons fails on the tail. -/
theorem searchUrl_none_tail (c : Char) (t : List Char) (h : searchUrl (c :: t) = none) :
    searchUrl t = none := by
  unfold searchUrl at h
  rcases hm : matchAt (c :: t) with _ | g
  · rw [hm] at h
    exact h
  · rw [hm] at h
    simp at h

/-- A failed search fails on every suffix. -/
theorem searchUrl_none_suffix (a u : List Char) (h : searchUrl (a ++ u) = none) :
    searchUrl u = none := by
  induction a with
  | nil => simpa using h
  | cons c a ih => exact ih (searchUrl_none_tail c (a ++ u) (by simpa using h))

/-- A head-position match makes the search succeed. -/
theorem searchUrl_isSome_of_matchAt (s : List Char) (h : (matchAt s).isSome = true) :
    (searchUrl s).isSome = true := by
  cases s with
  | nil =>
    unfold searchUrl
    rcases hm : matchAt [] with _ | g
    · rw [hm] at h
      simp at h
    · simp
  | cons c t =>
    unfold searchUrl
    rcases hm : matchAt (c :: t) with _ | g
    · rw [hm] at h
      simp at h
    · simp

/-- A search that succeeds on the tail succeeds on the cons. -/
theorem searchUrl_isSome_of_tail (c : Char) (t : List Char)
    (h : (searchUrl t).isSome = true) : (searchUrl (c :: t)).isSome = true := by
  unfold searchUrl
  rcases hm : matchAt (c :: t) with _ | g
  · exact h
  · simp

/-- Extending the input on the right preserves search success. -/
theorem searchUrl_isSome_append (u b : List Char) (h : (searchUrl u).isSome = true) :
    (searchUrl (u ++ b)).isSome = true := by
  induction u with
  | nil =>
    unfold searchUrl at h
    rcases hm : matchAt [] with _ | g
    · rw [hm] at h
      simp at h
    · exact searchUrl_isSome_of_matchAt _ (matchAt_append [] b (by rw [hm]; rfl))
  | cons c t ih =>
    unfold searchUrl at h
    rcases hm : matchAt (c :: t) with _ | g
    · rw [hm] at h
      rw [List.cons_append]
      exact searchUrl_isSome_of_tail c (t ++ b) (ih h)
    · rw [List.cons_append]
      exact searchUrl_isSome_of_matchAt _
        (by rw [← List.cons_append]; exact matchAt_append (c :: t) b (by rw [hm]; rfl))

/-- A pattern-free whole input is pattern-free on any middle segment. -/
theorem searchUrl_none_parts (a u b : List Char) (h : searchUrl (a ++ (u ++ b)) = none) :
    searchUrl u = none := by
  have h1 : searchUrl (u ++ b) = none := searchUrl_none_suffix a (u ++ b) h
  rcases hu : searchUrl u with _ | g
  · rfl
  · have h2 := searchUrl_isSome_append u b (by rw [hu]; rfl)
    rw [h1] at h2
    simp at h2

/-! ## Shortcode extractor facts -/

/-- The extractor fails exactly on the stories marker, with the fixed
message. -/
theorem extract_error_iff (p : List Char) (e : String) :
    extract_instagram_shortcode p = Except.error e ↔
      (e = storiesMsg ∧ hasSubstr storiesChars p = true) := by
  unfold extract_instagram_shortcode
  by_cases hp : p = []
  · rw [if_pos hp]
    subst hp
    have hfalse : hasSubstr storiesChars [] = false := by decide
    simp [hfalse]
  · rw [if_neg hp]
    by_cases hst : hasSubstr storiesChars p = true
    · simp [hst, eq_comm]
    · rw [Bool.not_eq_true] at hst
      rcases hs : searchUrl p with _ | g <;> simp [hst, hs]

/-- Without the stories marker the extractor always returns a value. -/
theorem extract_ok_of_no_stories (p : List Char)
    (h : hasSubstr storiesChars p = false) :
    ∃ r, extract_instagram_shortcode p = Except.ok r := by
  unfold extract_instagram_shortcode
  by_cases hp : p = []
  · rw [if_pos hp]
    exact ⟨p, rfl⟩
  · rw [if_neg hp]
    rcases hs : searchUrl p with _ | g <;> simp [h, hs]

/-- Claim C7: the shortcode extractor raises the unsupported-stories failure
if and only if its input contains the substring "/stories/"; any such input
never returns a value, and the failure message is always the stories
message, regardless of whether the rest of the input is a valid URL. -/
theorem stories_marker_rejection (p : List Char) (e : String) :
    extract_instagram_shortcode p = Except.error e ↔
      (e = storiesMsg ∧ hasSubstr storiesChars p = true) :=
  extract_error_iff p e

/-- Claim C4 counterexample: on the input "/abc" (nonempty, no stories
marker, no URL-pattern match) the code strips the leading slash, whereas the
claimed behaviour of removing only a trailing slash would leave the input
unchanged. -/
theorem shortcode_trailing_slash_refuted :
    ("/abc".toList ≠ [] ∧ hasSubstr storiesChars ("/abc".toList) = false ∧
      searchUrl ("/abc".toList) = none) ∧
    extract_instagram_shortcode ("/abc".toList) = Except.ok ("abc".toList) ∧
    specTrailingOnly ("/abc".toList) = "/abc".toList ∧
    ("abc".toList : List Char) ≠ "/abc".toList := by
  refine ⟨⟨?_, ?_, ?_⟩, ?_, ?_, ?_⟩ <;> decide

/-- Claim C4 (amended): for every nonempty input without the stories marker
and without a URL-pattern match, the result is the input with every leading
and trailing slash removed (Python `strip("/")`): the result neither starts
nor ends with a slash and the input is a run of slashes, then the result,
then a run of slashes. -/
theorem shortcode_nonurl_strips_all_slashes (p : List Char) (hne : p ≠ [])
    (hst : hasSubstr storiesChars p = false) (hurl : searchUrl p = none) :
    extract_instagram_shortcode p = Except.ok (stripSlashes p) ∧
    (∀ c, (stripSlashes p).head? = some c → c ≠ '/') ∧
    (∀ c, (stripSlashes p).getLast? = some c → c ≠ '/') ∧
    ∃ k m, p = List.replicate k '/' ++ (stripSlashes p ++ List.replicate m '/') := by
  refine ⟨?_, ?_, ?_, stripSlashes_decomp p⟩
  · unfold extract_instagram_shortcode
    rw [if_neg hne]
    simp [hst, hurl]
  · intro c hc
    have hh := stripSlashes_head p c hc
    simpa [isSlash] using hh
  · intro c hc
    have hh := stripSlashes_last p c hc
    simpa [isSlash] using hh

/-- Witness for the amended C4 on the concrete input "//ab/c//". -/
theorem shortcode_nonurl_strips_all_slashes_concrete :
    extract_instagram_shortcode ("//ab/c//".toList) = Except.ok ("ab/c".toList) ∧
    ∃ k m, "//ab/c//".toList =
      List.replicate k '/' ++ ("ab/c".toList ++ List.replicate m '/') := by
  have h := shortcode_nonurl_strips_all_slashes ("//ab/c//".toList)
    (by decide) (by decide) (by decide)
  have hs : stripSlashes ("//ab/c//".toList) = "ab/c".toList := by decide
  constructor
  · have h1 := h.1
    rw [hs] at h1
    exact h1
  · have h4 := h.2.2.2
    rw [hs] at h4
    exact h4

/-- Claim C8: shortcode extraction is idempotent on inputs that do not match
the URL pattern and do not contain the stories marker. -/
theorem shortcode_extract_idempotent (p : List Char)
    (hurl : searchUrl p = none) (hst : hasSubstr storiesChars p = false) :
    ∃ r, extract_instagram_shortcode p = Except.ok r ∧
      extract_instagram_shortcode r = Except.ok r := by
  by_cases hp : p = []
  · subst hp
    exact ⟨[], by simp [extract_instagram_shortcode], by simp [extract_instagram_shortcode]⟩
  · refine ⟨stripSlashes p, ?_, ?_⟩
    · unfold extract_instagram_shortcode
      rw [if_neg hp]
      simp [hst, hurl]
    · obtain ⟨k, m, hdec⟩ := stripSlashes_decomp p
      have hst2 : hasSubstr storiesChars (stripSlashes p) = false := by
        apply hasSubstr_none_parts storiesChars (stripSlashes p)
          (List.replicate k '/') (List.replicate m '/')
        rw [← hdec]
        exact hst
      have hurl2 : searchUrl (stripSlashes p) = none := by
        apply searchUrl_none_parts (List.replicate k '/') _ (List.replicate m '/')
        rw [← hdec]
        exact hurl
      by_cases hq : stripSlashes p = []
      · rw [hq]
        simp [extract_instagram_shortcode]
      · unfold extract_instagram_shortcode
        rw [if_neg hq]
        simp [hst2, hurl2, stripSlashes_idem]

/-- Witness for C8 on the concrete non-URL input "/ab//". -/
theorem shortcode_extract_idempotent_concrete :
    searchUrl ("/ab//".toList) = none ∧
    hasSubstr storiesChars ("/ab//".toList) = false ∧
    ∃ r, extract_instagram_shortcode ("/ab//".toList) = Except.ok r ∧
      extract_instagram_shortcode r = Except.ok r :=
  ⟨by decide, by decide, shortcode_extract_idempotent _ (by decide) (by decide)⟩

/-! ## Per-row pipeline lemmas -/

/-- A truthy optional string is a nonempty `some`. -/
theorem pyOptStr_not_false (o : Option String) (h : ¬ pyOptStr o = false) :
    ∃ s, o = some s ∧ s ≠ "" := by
  rcases o with _ | s
  · exact absurd rfl h
  · refine ⟨s, rfl, fun hs => h ?_⟩
    subst hs
    simp [pyOptStr]

/-- Every outcome of the post-eligibility stages: either full success with
all three IDs nonempty, or a failure with a nonempty error message, an empty
published-ad ID, and IDs populated exactly down to the failing stage; the
call trace always extends the incoming trace. -/
theorem afterEligibility_cases (row : InputRow) (orc : RowOracle)
    (elig : Option EligDict) (tr : List CallTag) :
    (∃ v c a u, v ≠ "" ∧ c ≠ "" ∧ a ≠ "" ∧
      afterEligibility row orc elig tr = (OutputRow.mk row "success" "" v c a, tr ++ u)) ∨
    (∃ e u, e ≠ "" ∧
      afterEligibility row orc elig tr = (OutputRow.mk row "failed" e "" "" "", tr ++ u)) ∨
    (∃ e v u, e ≠ "" ∧ v ≠ "" ∧
      afterEligibility row orc elig tr = (OutputRow.mk row "failed" e v "" "", tr ++ u)) ∨
    (∃ e v c u, e ≠ "" ∧ v ≠ "" ∧ c ≠ "" ∧
      afterEligibility row orc elig tr = (OutputRow.mk row "failed" e v c "", tr ++ u)) := by
  rcases elig with _ | d
  · exact Or.inr (Or.inl ⟨"Failed to fetch media eligibility", [], by decide,
      by simp [afterEligibility]⟩)
  · simp only [afterEligibility]
    by_cases h1 : pyOptStr d.error = true
    · rw [if_pos h1]
      exact Or.inr (Or.inl ⟨"API Error: " ++ d.error.getD "", [],
        str_append_ne_empty _ _ (by decide), by simp⟩)
    · rw [if_neg h1]
      by_cases h2 : (row.ad_code = "" && !(d.has_permission_for_partnership_ad.getD false)) = true
      · rw [if_pos h2]
        exact Or.inr (Or.inl ⟨"Media does not have permission for partnership ads", [],
          by decide, by simp⟩)
      · rw [if_neg h2]
        by_cases h3 : pyOptList d.eligibility_errors = true
        · rw [if_pos h3]
          exact Or.inr (Or.inl
            ⟨"Eligibility errors: " ++ String.intercalate ", " (d.eligibility_errors.getD []),
             [], str_append_ne_empty _ _ (by decide), by simp⟩)
        · rw [if_neg h3]
          by_cases h4 : pyOptStr d.id = false
          · rw [if_pos h4]
            exact Or.inr (Or.inl ⟨"Media ID not found in eligibility response", [],
              by decide, by simp⟩)
          · rw [if_neg h4]
            rcases hu : upload_instagram_video orc.upload with m | ⟨vid, verr⟩
            · exact Or.inr (Or.inl ⟨"Unexpected error: " ++ m, [CallTag.upload],
                str_append_ne_empty _ _ (by decide), rfl⟩)
            · simp only
              by_cases hv : pyOptStr vid = false
              · rw [if_pos hv]
                exact Or.inr (Or.inl ⟨pyOr verr "Video upload failed", [CallTag.upload],
                  pyOr_ne_empty _ _ (by decide), rfl⟩)
              · rw [if_neg hv]
                obtain ⟨vs, rfl, hvs⟩ := pyOptStr_not_false vid hv
                rcases hcr : create_ad_creative
                    (if row.ad_code = "" then none else some row.ad_code)
                    (d.id.getD "") orc.creative with m | ⟨cid, cerr⟩
                · exact Or.inr (Or.inr (Or.inl ⟨"Unexpected error: " ++ m, vs,
                    [CallTag.upload, CallTag.creative],
                    str_append_ne_empty _ _ (by decide), hvs, rfl⟩))
                · simp only
                  by_cases hc : pyOptStr cid = false
                  · rw [if_pos hc]
                    exact Or.inr (Or.inr (Or.inl ⟨pyOr cerr "Creative creation failed", vs,
                      [CallTag.upload, CallTag.creative],
                      pyOr_ne_empty _ _ (by decide), hvs, rfl⟩))
                  · rw [if_neg hc]
                    obtain ⟨cs, rfl, hcs⟩ := pyOptStr_not_false cid hc
                    rcases had : create_ad row.ad_name row.ad_set_id orc.ad with m | ⟨aid, aerr⟩
                    · exact Or.inr (Or.inr (Or.inr ⟨"Unexpected error: " ++ m, vs, cs,
                        [CallTag.upload, CallTag.creative, CallTag.ad],
                        str_append_ne_empty _ _ (by decide), hvs, hcs, rfl⟩))
                    · simp only
                      by_cases ha : pyOptStr aid = false
                      · rw [if_pos ha]
                        exact Or.inr (Or.inr (Or.inr ⟨pyOr aerr "Ad creation failed", vs, cs,
                          [CallTag.upload, CallTag.creative, CallTag.ad],
                          pyOr_ne_empty _ _ (by decide), hvs, hcs, rfl⟩))
                      · rw [if_neg ha]
                        obtain ⟨as_, rfl, has⟩ := pyOptStr_not_false aid ha
                        exact Or.inl ⟨vs, cs, as_,
                          [CallTag.upload, CallTag.creative, CallTag.ad],
                          hvs, hcs, has, rfl⟩

/-- Every outcome of one whole row: success with all IDs, or a failure with a
nonempty message and IDs populated down to the failing stage only. -/
theorem processRow_cases (row : InputRow) (orc : RowOracle) :
    (∃ v c a u, v ≠ "" ∧ c ≠ "" ∧ a ≠ "" ∧
      processRow row orc = (OutputRow.mk row "success" "" v c a, u)) ∨
    (∃ e u, e ≠ "" ∧
      processRow row orc = (OutputRow.mk row "failed" e "" "" "", u)) ∨
    (∃ e v u, e ≠ "" ∧ v ≠ "" ∧
      processRow row orc = (OutputRow.mk row "failed" e v "" "", u)) ∨
    (∃ e v c u, e ≠ "" ∧ v ≠ "" ∧ c ≠ "" ∧
      processRow row orc = (OutputRow.mk row "failed" e v c "", u)) := by
  unfold processRow
  by_cases hr : requiredMissing row ≠ []
  · rw [if_pos hr]
    exact Or.inr (Or.inl ⟨_, [], str_append_ne_empty _ _ (by decide), rfl⟩)
  · rw [if_neg hr]
    by_cases hpe : (row.permalink = "" && row.ad_code = "") = true
    · rw [if_pos hpe]
      exact Or.inr (Or.inl ⟨_, [], by decide, rfl⟩)
    · rw [if_neg hpe]
      by_cases hac : row.ad_code ≠ ""
      · rw [if_pos hac]
        rcases hf : fetch_branded_content_advertisable_medias (some row.ad_code) none
            orc.elig with m | elig
        · exact Or.inr (Or.inl ⟨"Unexpected error: " ++ m, [CallTag.elig],
            str_append_ne_empty _ _ (by decide), rfl⟩)
        · simp only
          rcases afterEligibility_cases row orc elig [CallTag.elig] with
            ⟨v, c, a, u, hv, hc, ha, heq⟩ | ⟨e, u, he, heq⟩ | ⟨e, v, u, he, hv, heq⟩ |
            ⟨e, v, c, u, he, hv, hc, heq⟩
          · exact Or.inl ⟨v, c, a, [CallTag.elig] ++ u, hv, hc, ha, heq⟩
          · exact Or.inr (Or.inl ⟨e, [CallTag.elig] ++ u, he, heq⟩)
          · exact Or.inr (Or.inr (Or.inl ⟨e, v, [CallTag.elig] ++ u, he, hv, heq⟩))
          · exact Or.inr (Or.inr (Or.inr ⟨e, v, c, [CallTag.elig] ++ u, he, hv, hc, heq⟩))
      · rw [if_neg hac]
        rcases he : extract_instagram_shortcode row.permalink.toList with e | sc
        · refine Or.inr (Or.inl ⟨e, [], ?_, rfl⟩)
          have he2 := (extract_error_iff row.permalink.toList e).mp he
          rw [he2.1]
          decide
        · simp only
          rcases hf : fetch_branded_content_advertisable_medias none (some [String.mk sc])
              orc.elig with m | elig
          · exact Or.inr (Or.inl ⟨"Unexpected error: " ++ m, [CallTag.elig],
              str_append_ne_empty _ _ (by decide), rfl⟩)
          · simp only
            rcases afterEligibility_cases row orc elig [CallTag.elig] with
              ⟨v, c, a, u, hv, hc, ha, heq⟩ | ⟨e2, u, he, heq⟩ | ⟨e2, v, u, he, hv, heq⟩ |
              ⟨e2, v, c, u, he, hv, hc, heq⟩
            · exact Or.inl ⟨v, c, a, [CallTag.elig] ++ u, hv, hc, ha, heq⟩
            · exact Or.inr (Or.inl ⟨e2, [CallTag.elig] ++ u, he, heq⟩)
            · exact Or.inr (Or.inr (Or.inl ⟨e2, v, [CallTag.elig] ++ u, he, hv, heq⟩))
            · exact Or.inr (Or.inr (Or.inr ⟨e2, v, c, [CallTag.elig] ++ u, he, hv, hc, heq⟩))

/-- For a validated row carrying an `ad_code`, the row reduces to the
eligibility fetch keyed by the ad code followed by the later stages. -/
theorem processRow_adcode_eq (row : InputRow) (orc : RowOracle)
    (hreq : requiredMissing row = []) (hac : row.ad_code ≠ "") :
    processRow row orc =
      match fetch_branded_content_advertisable_medias (some row.ad_code) none orc.elig with
      | Except.error m =>
        (OutputRow.mk row "failed" ("Unexpected error: " ++ m) "" "" "", [CallTag.elig])
      | Except.ok elig => afterEligibility row orc elig [CallTag.elig] := by
  unfold processRow
  rw [if_neg (fun hh => hh hreq), if_neg ?hpe, if_pos hac]
  case hpe =>
    intro hh
    rw [Bool.and_eq_true] at hh
    exact hac (of_decide_eq_true hh.2)

/-- After a usable eligibility dict, a successful upload and a failed
creative creation, the row fails with the creative error, keeps the video ID
and leaves the later IDs empty. -/
theorem afterEligibility_creative_fail (row : InputRow) (orc : RowOracle) (d : EligDict)
    (mid ut v : String) (cr cerr : Option String) (tr : List CallTag)
    (hde : d.error = none)
    (hperm : row.ad_code ≠ "" ∨ d.has_permission_for_partnership_ad = some true)
    (herr : pyOptList d.eligibility_errors = false)
    (hid : d.id = some mid) (hmid : mid ≠ "")
    (hup : orc.upload = UploadResp.resp 200 ut (some v)) (hv : v ≠ "")
    (hcr : create_ad_creative (if row.ad_code = "" then none else some row.ad_code) mid
      orc.creative = Except.ok (cr, cerr))
    (hcrf : pyOptStr cr = false) :
    afterEligibility row orc (some d) tr =
      (OutputRow.mk row "failed" (pyOr cerr "Creative creation failed") v "" "",
       tr ++ [CallTag.upload, CallTag.creative]) := by
  have hu : upload_instagram_video orc.upload = Except.ok (some v, none) := by
    rw [hup]
    simp [upload_instagram_video]
  simp only [afterEligibility]
  rw [if_neg ?herrkey]
  case herrkey =>
    rw [hde]
    simp [pyOptStr]
  rw [if_neg ?hperm2]
  case hperm2 =>
    intro hh
    rw [Bool.and_eq_true] at hh
    rcases hperm with hp | hp
    · exact hp (of_decide_eq_true hh.1)
    · rw [hp] at hh
      simp at hh
  rw [if_neg ?herr2]
  case herr2 =>
    rw [herr]
    simp
  rw [if_neg ?hid2]
  case hid2 =>
    rw [hid]
    simp [pyOptStr, hmid]
  rw [hu]
  simp only
  rw [if_neg ?hv2]
  case hv2 =>
    simp [pyOptStr, hv]
  rw [hid]
  simp only [Option.getD_some]
  rw [hcr]
  simp only
  rw [if_pos hcrf]

/-- Claim C1: every output row reflects the furthest pipeline stage reached.
The status is always "success" or "failed"; a success carries an empty error
and all three stage IDs; a failure carries a nonempty error and an empty
published-ad ID; a populated creative ID requires a populated video ID and a
populated published-ad ID requires a populated creative ID; and in the cited
scenario (eligibility succeeds, video upload succeeds, creative creation
fails) the row fails with the creative error message, a populated video ID,
and empty creative and published-ad IDs. -/
theorem partnership_pipeline_furthest_stage (row : InputRow) (orc : RowOracle)
    (t ut : String) (d : EligDict) (ds : List EligDict) (mid v : String)
    (cr cerr : Option String) :
    ((processRow row orc).1.status = "success" ∨ (processRow row orc).1.status = "failed") ∧
    ((processRow row orc).1.status = "success" →
      (processRow row orc).1.error = "" ∧ (processRow row orc).1.video_id ≠ "" ∧
      (processRow row orc).1.creative_id ≠ "" ∧ (processRow row orc).1.published_ad_id ≠ "") ∧
    ((processRow row orc).1.status = "failed" →
      (processRow row orc).1.error ≠ "" ∧ (processRow row orc).1.published_ad_id = "") ∧
    ((processRow row orc).1.creative_id ≠ "" → (processRow row orc).1.video_id ≠ "") ∧
    ((processRow row orc).1.published_ad_id ≠ "" → (processRow row orc).1.creative_id ≠ "") ∧
    (requiredMissing row = [] →
      (row.ad_code = "" → hasSubstr storiesChars row.permalink.toList = false) →
      orc.elig = EligResp.resp 200 t (some (d :: ds)) →
      d.error = none →
      (row.ad_code ≠ "" ∨ d.has_permission_for_partnership_ad = some true) →
      pyOptList d.eligibility_errors = false →
      d.id = some mid → mid ≠ "" →
      orc.upload = UploadResp.resp 200 ut (some v) → v ≠ "" →
      create_ad_creative (if row.ad_code = "" then none else some row.ad_code) mid
        orc.creative = Except.ok (cr, cerr) →
      pyOptStr cr = false →
      row.permalink ≠ "" ∨ row.ad_code ≠ "" →
      processRow row orc =
        (OutputRow.mk row "failed" (pyOr cerr "Creative creation failed") v "" "",
         [CallTag.elig, CallTag.upload, CallTag.creative])) := by
  have hshape := processRow_cases row orc
  refine ⟨?_, ?_, ?_, ?_, ?_, ?_⟩
  · rcases hshape with ⟨v', c', a', u, _, _, _, heq⟩ | ⟨e, u, _, heq⟩ |
      ⟨e, v', u, _, _, heq⟩ | ⟨e, v', c', u, _, _, _, heq⟩ <;> rw [heq]
    · exact Or.inl rfl
    all_goals exact Or.inr rfl
  · intro hst
    rcases hshape with ⟨v', c', a', u, hv', hc', ha', heq⟩ | ⟨e, u, he, heq⟩ |
      ⟨e, v', u, he, hv', heq⟩ | ⟨e, v', c', u, he, hv', hc', heq⟩ <;> rw [heq] at hst ⊢
    · exact ⟨rfl, hv', hc', ha'⟩
    all_goals simp at hst
  · intro hst
    rcases hshape with ⟨v', c', a', u, hv', hc', ha', heq⟩ | ⟨e, u, he, heq⟩ |
      ⟨e, v', u, he, hv', heq⟩ | ⟨e, v', c', u, he, hv', hc', heq⟩ <;> rw [heq] at hst ⊢
    · simp at hst
    all_goals exact ⟨by assumption, rfl⟩
  · intro hc
    rcases hshape with ⟨v', c', a', u, hv', hc', ha', heq⟩ | ⟨e, u, he, heq⟩ |
      ⟨e, v', u, he, hv', heq⟩ | ⟨e, v', c', u, he, hv', hc', heq⟩ <;> rw [heq] at hc ⊢
    · exact hv'
    · exact absurd rfl hc
    · exact absurd rfl hc
    · exact hv'
  · intro ha
    rcases hshape with ⟨v', c', a', u, hv', hc', ha', heq⟩ | ⟨e, u, he, heq⟩ |
      ⟨e, v', u, he, hv', heq⟩ | ⟨e, v', c', u, he, hv', hc', heq⟩ <;> rw [heq] at ha ⊢
    · exact hc'
    all_goals exact absurd rfl ha
  · intro hreq hstories helig hde hperm herr hid hmid hup hv hcr hcrf hpa
    have hfail := afterEligibility_creative_fail row orc d mid ut v cr cerr [CallTag.elig]
      hde hperm herr hid hmid hup hv hcr hcrf
    by_cases hac : row.ad_code ≠ ""
    · rw [processRow_adcode_eq row orc hreq hac]
      have hf : fetch_branded_content_advertisable_medias (some row.ad_code) none orc.elig =
          Except.ok (some d) := by
        rw [helig]
        simp [fetch_branded_content_advertisable_medias, pyOptStr, hac]
      rw [hf]
      exact hfail
    · rw [Ne, not_not] at hac
      have hpe : row.permalink ≠ "" := by
        rcases hpa with hp | hp
        · exact hp
        · exact absurd hac hp
      obtain ⟨sc, hsc⟩ := extract_ok_of_no_stories row.permalink.toList (hstories hac)
      unfold processRow
      rw [if_neg (fun hh => hh hreq), if_neg ?hpe2, if_neg (fun hh => hh hac), hsc]
      case hpe2 =>
        intro hh
        rw [Bool.and_eq_true] at hh
        exact hpe (of_decide_eq_true hh.1)
      simp only
      have hf : fetch_branded_content_advertisable_medias none (some [String.mk sc]) orc.elig =
          Except.ok (some d) := by
        rw [helig]
        simp [fetch_branded_content_advertisable_medias, pyOptList]
      rw [hf]
      exact hfail

/-- Witness for C1: on a permalink row whose creative creation returns a 400,
the output row keeps the video ID, has empty creative and published-ad IDs,
and carries the creative failure text. -/
theorem partnership_pipeline_furthest_stage_concrete :
    processRow wRowPermalink wOrcCreativeFail =
      (OutputRow.mk wRowPermalink "failed" "Creative creation failed: 400 - bad creative"
        "V1" "" "", [CallTag.elig, CallTag.upload, CallTag.creative]) := by
  have h := (partnership_pipeline_furthest_stage wRowPermalink wOrcCreativeFail "" ""
    wEligOk [] "M1" "V1" none
    (some "Creative creation failed: 400 - bad creative")).2.2.2.2.2
  rw [h (by decide) (fun _ => by decide) (by decide) (by decide) (Or.inr (by decide))
    (by decide) (by decide) (by decide) (by decide) (by decide) (by decide) (by decide)
    (Or.inl (by decide))]
  decide

/-- Claim C3 counterexample: a row supplying both `permalink` and `ad_code`
does not fail validation; with an all-success oracle it succeeds and issues
all four remote calls, refuting the exactly-one requirement. -/
theorem row_validation_exactly_one_refuted :
    wRowBoth.permalink ≠ "" ∧ wRowBoth.ad_code ≠ "" ∧
    processRow wRowBoth wOrcAllOk =
      (OutputRow.mk wRowBoth "success" "" "V1" "C1" "A1",
       [CallTag.elig, CallTag.upload, CallTag.creative, CallTag.ad]) :=
  ⟨by decide, by decide, by decide⟩

/-- Claim C3 (amended): validation requires the four fields `cta_type`,
`link`, `ad_name`, `ad_set_id` to be nonempty and at least one of
`permalink`, `ad_code` to be supplied; a violating row fails with no remote
call issued, while a validated row carrying an `ad_code` (whether or not a
permalink is also supplied) proceeds to the eligibility call. -/
theorem row_validation_required_fields (row : InputRow) (orc : RowOracle) :
    (requiredMissing row ≠ [] →
      processRow row orc = (OutputRow.mk row "failed"
        ("Missing required fields: " ++ String.intercalate ", " (requiredMissing row))
        "" "" "", [])) ∧
    (requiredMissing row = [] → row.permalink = "" → row.ad_code = "" →
      processRow row orc = (OutputRow.mk row "failed"
        "Either permalink or ad_code must be provided" "" "" "", [])) ∧
    (requiredMissing row = [] → row.ad_code ≠ "" →
      (processRow row orc).2.head? = some CallTag.elig) := by
  refine ⟨?_, ?_, ?_⟩
  · intro hr
    unfold processRow
    rw [if_pos hr]
  · intro hr hp ha
    unfold processRow
    rw [if_neg (fun hh => hh hr), if_pos (by rw [hp, ha]; decide)]
  · intro hr ha
    rw [processRow_adcode_eq row orc hr ha]
    rcases hf : fetch_branded_content_advertisable_medias (some row.ad_code) none
        orc.elig with m | elig
    · rfl
    · show (afterEligibility row orc elig [CallTag.elig]).2.head? = some CallTag.elig
      rcases afterEligibility_cases row orc elig [CallTag.elig] with
        ⟨v, c, a, u, _, _, _, heq⟩ | ⟨e, u, _, heq⟩ | ⟨e, v, u, _, _, heq⟩ |
        ⟨e, v, c, u, _, _, _, heq⟩ <;> rw [heq] <;> rfl

/-- Witness for the amended C3: a row missing `cta_type` fails with an empty
call trace, while the both-supplied row issues its first remote call. -/
theorem row_validation_required_fields_concrete :
    processRow wRowMissing wOrcAllOk = (OutputRow.mk wRowMissing "failed"
      ("Missing required fields: " ++ String.intercalate ", " (requiredMissing wRowMissing))
      "" "" "", []) ∧
    (processRow wRowBoth wOrcAllOk).2.head? = some CallTag.elig :=
  ⟨(row_validation_required_fields wRowMissing wOrcAllOk).1 (by decide),
   (row_validation_required_fields wRowBoth wOrcAllOk).2.2 (by decide) (by decide)⟩

/-- Claim C10: for a validated row supplied with an `ad_code`, the permission
flag is never consulted, yet the row still fails at the eligibility stage —
with only the eligibility call issued and no upload, creative or ad call —
whenever the eligibility response carries a nonempty `eligibility_errors`
list (failing with the joined "Eligibility errors: " message), a non-200
status (whose body text, when nonempty, surfaces as "API Error: " plus the
text), or no usable data at all. -/
theorem adcode_eligibility_failures (row : InputRow) (orc : RowOracle)
    (hreq : requiredMissing row = []) (hac : row.ad_code ≠ "") :
    (∀ t d ds, orc.elig = EligResp.resp 200 t (some (d :: ds)) → d.error = none →
      pyOptList d.eligibility_errors = true →
      processRow row orc =
        (OutputRow.mk row "failed"
          ("Eligibility errors: " ++ String.intercalate ", " (d.eligibility_errors.getD []))
          "" "" "", [CallTag.elig])) ∧
    (∀ s t dta, orc.elig = EligResp.resp s t dta → s ≠ 200 →
      (processRow row orc).1.status = "failed" ∧ (processRow row orc).2 = [CallTag.elig] ∧
      (t ≠ "" → (processRow row orc).1.error = "API Error: " ++ t)) ∧
    (∀ t dta, orc.elig = EligResp.resp 200 t dta → (dta = none ∨ dta = some []) →
      processRow row orc =
        (OutputRow.mk row "failed" "Failed to fetch media eligibility" "" "" "",
         [CallTag.elig])) := by
  refine ⟨?_, ?_, ?_⟩
  · intro t d ds helig hde herrs
    rw [processRow_adcode_eq row orc hreq hac]
    have hf : fetch_branded_content_advertisable_medias (some row.ad_code) none orc.elig =
        Except.ok (some d) := by
      rw [helig]
      simp [fetch_branded_content_advertisable_medias, pyOptStr, hac]
    rw [hf]
    show afterEligibility row orc (some d) [CallTag.elig] = _
    simp only [afterEligibility]
    rw [if_neg (by rw [hde]; simp [pyOptStr])]
    rw [if_neg (by intro hh; rw [Bool.and_eq_true] at hh; exact hac (of_decide_eq_true hh.1))]
    rw [if_pos herrs]
  · intro s t dta helig hst
    have hf : fetch_branded_content_advertisable_medias (some row.ad_code) none orc.elig =
        Except.ok (some (EligDict.mk (some t) none none none)) := by
      rw [helig]
      simp [fetch_branded_content_advertisable_medias, pyOptStr, hac, hst]
    have hrow : processRow row orc =
        afterEligibility row orc (some (EligDict.mk (some t) none none none)) [CallTag.elig] := by
      rw [processRow_adcode_eq row orc hreq hac, hf]
    rw [hrow]
    by_cases ht : t = ""
    · subst ht
      refine ⟨?_, ?_, fun hh => absurd rfl hh⟩ <;>
        simp [afterEligibility, pyOptStr, pyOptList, hac]
    · have hout : afterEligibility row orc (some (EligDict.mk (some t) none none none))
          [CallTag.elig] =
          (OutputRow.mk row "failed" ("API Error: " ++ t) "" "" "", [CallTag.elig]) := by
        simp only [afterEligibility]
        rw [if_pos (by simp [pyOptStr, ht])]
        simp [Option.getD_some]
      rw [hout]
      exact ⟨rfl, rfl, fun _ => rfl⟩
  · intro t dta helig hdta
    have hf : fetch_branded_content_advertisable_medias (some row.ad_code) none orc.elig =
        Except.ok none := by
      rcases hdta with rfl | rfl <;>
        · rw [helig]
          simp [fetch_branded_content_advertisable_medias, pyOptStr, hac]
    rw [processRow_adcode_eq row orc hreq hac, hf]
    rfl

/-- Witness for C10: a row with an `ad_code`, no permission flag consulted,
and an eligibility response listing two error codes fails with the joined
message after the eligibility call only. -/
theorem adcode_eligibility_failures_concrete :
    processRow wRowAdCode
      (RowOracle.mk (EligResp.resp 200 "" (some [wEligErrs]))
        (UploadResp.resp 200 "" (some "V1")) (CreativeResp.resp 200 "" (some "C1"))
        (AdResp.resp 200 "" (some "A1"))) =
      (OutputRow.mk wRowAdCode "failed" "Eligibility errors: ERR_A, ERR_B" "" "" "",
       [CallTag.elig]) := by
  have h := (adcode_eligibility_failures wRowAdCode
    (RowOracle.mk (EligResp.resp 200 "" (some [wEligErrs]))
      (UploadResp.resp 200 "" (some "V1")) (CreativeResp.resp 200 "" (some "C1"))
      (AdResp.resp 200 "" (some "A1"))) (by decide) (by decide)).1
  rw [h "" wEligErrs [] (by decide) (by decide) (by decide)]
  decide

/-- Claim C6: the batch produces exactly one output record per input row and
the i-th output is the processed i-th input, for every oracle — so output
order equals input order regardless of which rows succeed or fail. -/
theorem batch_output_matches_input (rows : List InputRow) (f : Nat → RowOracle) :
    (create_partnership_ads_from_csv rows f).length = rows.length ∧
    ∀ i : Nat, (create_partnership_ads_from_csv rows f).get? i =
      (rows.get? i).map (fun r => (processRow r (f i)).1) := by
  induction rows generalizing f with
  | nil => exact ⟨rfl, fun i => by simp [create_partnership_ads_from_csv]⟩
  | cons r rest ih =>
    refine ⟨?_, ?_⟩
    · simp [create_partnership_ads_from_csv, (ih (fun n => f (n + 1))).1]
    · intro i
      cases i with
      | zero => simp [create_partnership_ads_from_csv]
      | succ j =>
        show (create_partnership_ads_from_csv (r :: rest) f).get? (j + 1) = _
        rw [show create_partnership_ads_from_csv (r :: rest) f =
          (processRow r (f 0)).1 :: create_partnership_ads_from_csv rest (fun n => f (n + 1))
          from rfl]
        rw [List.get?_cons_succ]
        exact (ih (fun n => f (n + 1))).2 j

/-- Claim C2: once the page just appended brings the (filtered) accumulator
to the caller-supplied limit N, the loop truncates to exactly N items and
returns with this single further page request, before any next-page check. -/
theorem pagination_limit_truncation (only_with_permission : Bool) (N : Nat)
    (p : PageResponse) (rest : List PageResponse) (acc medias : List MediaItem)
    (hN : 0 < N) (hs : p.status = 200) (hd : p.data = some medias)
    (hlen : N ≤ (acc ++ (if only_with_permission then
      medias.filter (fun m => m.has_permission_for_partnership_ad) else medias)).length) :
    fetchMediasLoop only_with_permission (some N) (p :: rest) acc =
      Except.ok ((acc ++ (if only_with_permission then
        medias.filter (fun m => m.has_permission_for_partnership_ad) else medias)).take N,
        1) ∧
    ((acc ++ (if only_with_permission then
      medias.filter (fun m => m.has_permission_for_partnership_ad) else medias)).take N).length
      = N := by
  constructor
  · simp only [fetchMediasLoop]
    rw [if_neg (by simp [hs]), hd]
    simp only
    rw [if_pos ?cond]
    case cond =>
      have hlen2 := hlen
      rw [List.length_append] at hlen2
      simp [hd, pyOptNat, hlen2, Nat.pos_iff_ne_zero.mp hN]
    rfl
  · rw [List.length_take]
    exact min_eq_left hlen

/-- Witness for C2: one page carrying three admitted items with limit 2 and a
next-page cursor returns exactly the first two items after a single request,
never touching the second page. -/
theorem pagination_limit_truncation_example :
    fetch_all_advertisable_medias true (some 2) [wPage1, wPage2] =
      Except.ok ([wM1, wM2], 1) := by
  have h := (pagination_limit_truncation true 2 wPage1 [wPage2] [] [wM1, wM2, wM3]
    (by decide) (by decide) (by decide) (by decide)).1
  unfold fetch_all_advertisable_medias
  rw [h]
  decide

/-- Claim C5: for supported methods, a non-200 response maps to the failure
string built as "API Error ", then the nested error code (defaulting to the
HTTP status), then ": ", then the nested error message (defaulting to the
raw response text); a 200 response returns the decoded body with no error. -/
theorem api_error_string_format (method : String) (status : Nat) (text : String)
    (body : GraphBody) (hm : isSupportedMethod method = true) :
    (status ≠ 200 → make_api_request method (ApiTransport.resp status text body) =
      (none, some ("API Error " ++ toString ((body.error.bind GraphError.code).getD status) ++
        ": " ++ ((body.error.bind GraphError.message).getD text)))) ∧
    make_api_request method (ApiTransport.resp 200 text body) = (some body, none) := by
  constructor
  · intro hst
    unfold make_api_request
    rw [if_pos hm]
    simp only
    rw [if_neg hst]
  · unfold make_api_request
    rw [if_pos hm]
    rfl

/-- Witness for C5: a 400 with a nested error object formats its code and
message; a 200 returns the body. -/
theorem api_error_string_format_concrete :
    make_api_request "GET" (ApiTransport.resp 400 "raw" wBodyErr) =
      (none, some "API Error 190: Invalid OAuth access token.") ∧
    make_api_request "GET" (ApiTransport.resp 200 "raw" wBodyPlain) =
      (some wBodyPlain, none) := by
  constructor
  · have h := (api_error_string_format "GET" 400 "raw" wBodyErr (by decide)).1 (by decide)
    rw [h]
    decide
  · exact (api_error_string_format "GET" 200 "raw" wBodyPlain (by decide)).2

/-- Claim C9: the request wrapper never propagates an exception: for
supported methods a transport exception maps to "Request error: " plus the
message and any other exception to "Unexpected error: " plus the message,
while an unsupported method string yields the "Unsupported HTTP method: "
outcome for every transport behaviour, rather than a raised fault. -/
theorem api_request_total_outcomes (method : String) (e : String) (t : ApiTransport) :
    (isSupportedMethod method = true →
      make_api_request method (ApiTransport.reqExc e) =
        (none, some ("Request error: " ++ e)) ∧
      make_api_request method (ApiTransport.otherExc e) =
        (none, some ("Unexpected error: " ++ e))) ∧
    (isSupportedMethod method = false →
      make_api_request method t = (none, some ("Unsupported HTTP method: " ++ method))) := by
  constructor
  · intro hm
    constructor
    · unfold make_api_request
      rw [if_pos hm]
    · unfold make_api_request
      rw [if_pos hm]
  · intro hm
    unfold make_api_request
    rw [if_neg (by simp [hm])]

/-- Witness for C9: a lowercase "post" transport failure maps to the prefixed
error string, and the unsupported "PATCH" maps to the unsupported-method
outcome even though its transport would have returned a 200. -/
theorem api_request_total_outcomes_concrete :
    make_api_request "post" (ApiTransport.reqExc "boom") =
      (none, some "Request error: boom") ∧
    make_api_request "PATCH" (ApiTransport.resp 200 "ok" wBodyPlain) =
      (none, some "Unsupported HTTP method: PATCH") :=
  ⟨((api_request_total_outcomes "post" "boom" (ApiTransport.reqExc "boom")).1 (by decide)).1,
   (api_request_total_outcomes "PATCH" "boom"
     (ApiTransport.resp 200 "ok" wBodyPlain)).2 (by decide)⟩
